import Mathlib

/-!
Verification of the link-enrichment subsystem of the TaCertoIssoAI fact-checking
pipeline (`app/ai/factchecking/link_enricher.py` and the record shapes of
`app/models/factchecking.py`).

The extraction backends (trafilatura, newspaper3k, readability, goose3,
requests-session, beautifulsoup) perform network I/O, so they are abstracted as
an arbitrary behaviour function `Behavior : BackendName → String → BackendOutcome`
that may return a result dictionary, return nothing, or raise an exception.
Everything downstream of the backends (the content-validity classifier, the
strategy-chain orchestrator, truncation, summarisation and the batch
orchestrator) is translated directly from the Python source.

Python strings are modelled as Lean `String` (a list of characters, so `len`,
slicing and `in` translate to `List` operations on `String.data`); Python
`None` is `Option.none`; a Python `float` comparison `k / n > 0.15` is embedded
as the exact rational comparison `20 * k > 3 * n`.  `.lower()`, `.strip()` and
`.split()` are embedded for the ASCII texts the classifier lexicon contains.
-/

set_option maxRecDepth 8192

namespace LinkEnricher

/-! ## Python string primitives -/

/-- Python `p in s` on `List Char`: `isPfx p l` is `l.startswith(p)`. -/
def isPfx : List Char → List Char → Bool
  | [], _ => true
  | _ :: _, [] => false
  | a :: as, b :: bs => a == b && isPfx as bs

/-- Python `p in s` (substring containment) on `List Char`. -/
def subList (p : List Char) : List Char → Bool
  | [] => p.isEmpty
  | c :: cs => isPfx p (c :: cs) || subList p cs

/-- Python `p in s` for strings. -/
def pyIn (p s : String) : Bool := subList p.data s.data

/-- Python `s.lower()` (the classifier lexicon is ASCII, where `Char.toLower`
agrees with Python). -/
def pyLower (s : String) : String := String.mk (s.data.map Char.toLower)

/-- Python `s.strip()`: drop whitespace from both ends. -/
def pyStrip (s : String) : String :=
  String.mk (((s.data.dropWhile Char.isWhitespace).reverse.dropWhile Char.isWhitespace).reverse)

/-- Python `s[:n]` for a non-negative bound `n`. -/
def pySlice (s : String) (n : Nat) : String := String.mk (s.data.take n)

/-- Word-count automaton for Python `len(s.split())`: `inWord` records whether
the previous character was part of a word. -/
def wcAux : Bool → List Char → Nat
  | _, [] => 0
  | inWord, c :: cs =>
    if c.isWhitespace then wcAux false cs
    else (if inWord then 0 else 1) + wcAux true cs

/-- Python `len(s.split())`: the number of maximal whitespace-free runs. -/
def pyWordCount (s : String) : Nat := wcAux false s.data

/-- Python `s.split(sep)[0]`: the text before the first occurrence of `sep`
(the whole text when `sep` does not occur). -/
def beforeFirstAux (sep : List Char) : List Char → List Char
  | [] => []
  | c :: cs => if isPfx sep (c :: cs) then [] else c :: beforeFirstAux sep cs

/-- Python `s.split(sep)[0]` for strings (used with `sep = "\n\n"`). -/
def beforeFirst (sep s : String) : String := String.mk (beforeFirstAux sep.data s.data)

/-- Number of (possibly overlapping) occurrence positions of `p` in a text;
for the non-self-overlapping lexicon phrases used below this coincides with
Python `s.count(p)`. -/
def countOccs (p : List Char) : List Char → Nat
  | [] => 0
  | c :: cs => (if isPfx p (c :: cs) then 1 else 0) + countOccs p cs

/-! ## `_is_invalid_content`: the content-validity classifier -/

/-- `invalid_patterns` of `_is_invalid_content` (link_enricher.py lines 48-90). -/
def invalid_patterns : List String :=
  [ "javascript is not available",
    "javascript is disabled",
    "please enable javascript",
    "switch to a supported browser",
    "we've detected that javascript is disabled",
    "enable javascript or switch to a supported browser",
    "something went wrong",
    "try again",
    "privacy related extensions",
    "disable them and try again",
    "help center",
    "terms of service",
    "privacy policy",
    "cookie policy",
    "ads info",
    "imprint",
    "© 2025 x corp",
    "© 2024 x corp",
    "© 2023 x corp",
    "access denied",
    "forbidden",
    "not found",
    "page not found",
    "server error",
    "temporarily unavailable",
    "maintenance mode",
    "under construction",
    "coming soon",
    "this page is not available",
    "content not available",
    "unable to load",
    "loading failed",
    "connection error",
    "timeout",
    "rate limited",
    "too many requests" ]

/-- `js_related_words` (line 105). -/
def js_related_words : List String :=
  ["javascript", "browser", "enable", "switch", "supported", "detected",
   "error", "failed", "unavailable"]

/-- `error_words` (line 112). -/
def error_words : List String :=
  ["error", "failed", "unavailable", "denied", "forbidden", "not found", "disabled"]

/-- `footer_words` (line 117). -/
def footer_words : List String :=
  ["help", "terms", "privacy", "policy", "cookie", "ads", "imprint", "corp", "©"]

/-- Python `sum(1 for p in pats if p in t)`. -/
def countContained (pats : List String) (t : String) : Nat :=
  pats.countP (fun p => pyIn p t)

/-- Body of `_is_invalid_content` after the `texto_lower = texto.lower().strip()`
normalisation (lines 93-123): the 15% keyword-density check, the
short-text-with-pattern check, the JavaScript-words check, the
error-words check, and the footer-words check, in source order.
The float comparison `invalid_count / total_words > 0.15` is the exact
comparison `20 * invalid_count > 3 * total_words`. -/
def is_invalid_core (texto_lower : String) : Bool :=
  if 0 < pyWordCount texto_lower ∧
      20 * countContained invalid_patterns texto_lower > 3 * pyWordCount texto_lower then true
  else if texto_lower.length < 300 ∧
      invalid_patterns.any (fun p => pyIn p texto_lower) = true then true
  else if 2 ≤ countContained js_related_words texto_lower ∧ texto_lower.length < 400 then true
  else if texto_lower.length < 100 ∧
      error_words.any (fun w => pyIn w texto_lower) = true then true
  else if 3 ≤ countContained footer_words texto_lower ∧ texto_lower.length < 200 then true
  else false

/-- `_is_invalid_content(texto)` (lines 38-123): empty text is invalid,
otherwise the checks of `is_invalid_core` run on `texto.lower().strip()`. -/
def is_invalid_content (texto : String) : Bool :=
  if texto = "" then true
  else is_invalid_core (pyStrip (pyLower texto))

/-! ## Data model (`app/models/factchecking.py`) -/

/-- `ExtractedClaim`: a claim with the URLs found in the original text. -/
structure ExtractedClaim where
  text : String
  links : List String
  llm_comment : String
  entities : List String
deriving DecidableEq, Repr

/-- `ClaimExtractionResult`: output of the claim-extraction step. -/
structure ClaimExtractionResult where
  original_text : String
  claims : List ExtractedClaim
  processing_notes : Option String
deriving DecidableEq, Repr

/-- `EnrichedLink` (factchecking.py lines 67-74).  The pydantic model declares
`title: str = Field(default="")`, but pydantic does not validate plain
attribute assignment, and `_extract_link_content` assigns
`extraction_result.get("titulo", "")`, which is the stored value `None`
whenever the winning backend extracted no title (the key is always present, so
the default `""` is never substituted).  The field is therefore embedded as
`Option String`, with `some ""` for the validated constructor default. -/
structure EnrichedLink where
  url : String
  title : Option String := some ""
  content : String := ""
  summary : String := ""
  extraction_status : String := "pending"
  extraction_notes : Option String := none
deriving DecidableEq, Repr

/-- `EnrichedClaim`: a claim with enriched link content. -/
structure EnrichedClaim where
  text : String
  original_links : List String
  enriched_links : List EnrichedLink
  llm_comment : String
  entities : List String
deriving DecidableEq, Repr

/-- `LinkEnrichmentResult`: output of the link-enrichment step.
`processing_time_ms` is wall-clock time in the source; it is pinned to `0`
here since no claim depends on it. -/
structure LinkEnrichmentResult where
  original_claims : List ExtractedClaim
  enriched_claims : List EnrichedClaim
  total_links_processed : Nat
  successful_extractions : Nat
  processing_time_ms : Nat
  processing_notes : Option String
deriving DecidableEq, Repr

/-! ## Backends as arbitrary behaviours -/

/-- The six extraction backends of link_enricher.py. -/
inductive BackendName where
  | trafilatura
  | goose3
  | newspaper3k
  | readability
  | requests_session
  | beautifulsoup
deriving DecidableEq, Repr, Fintype

/-- The Python name string of each backend, as used for `metodo_usado`. -/
def BackendName.nome : BackendName → String
  | .trafilatura => "trafilatura"
  | .goose3 => "goose3"
  | .newspaper3k => "newspaper3k"
  | .readability => "readability"
  | .requests_session => "requests_session"
  | .beautifulsoup => "beautifulsoup"

/-- The dictionary every backend returns on success
(`{"titulo": ..., "autores": ..., "data_publicacao": ..., "texto_completo": ...}`);
each value may be Python `None`. -/
structure ExtractionDict where
  titulo : Option String
  autores : Option (List String)
  data_publicacao : Option String
  texto_completo : Option String
deriving DecidableEq, Repr

/-- Outcome of invoking one backend on one URL: it either raises an exception
with some message, or returns `None`, or returns a result dictionary. -/
inductive BackendOutcome where
  | throws (msg : String)
  | ret (result : Option ExtractionDict)
deriving DecidableEq, Repr

/-- Arbitrary behaviour of the network-facing backends: which outcome each
backend produces on each URL.  All theorems below quantify over this. -/
def Behavior : Type := BackendName → String → BackendOutcome

/-! ## `extrair_noticia_principal_de_link`: the strategy-chain orchestrator -/

/-- The fixed base chain `metodos_rapidos` (lines 360-366). -/
def metodos_rapidos : List BackendName :=
  [.trafilatura, .newspaper3k, .readability, .requests_session, .beautifulsoup]

/-- Python `list.insert(i, x)` for `i ≤ len(l)`. -/
def pyInsert (i : Nat) (x : α) (l : List α) : List α := l.take i ++ x :: l.drop i

/-- The URL-dependent chain (lines 358-370): `goose3` is inserted at index 1
when the URL contains `"x.com"` or `"twitter.com"` as a substring. -/
def buildChain (url : String) : List BackendName :=
  if pyIn "x.com" url || pyIn "twitter.com" url then
    pyInsert 1 BackendName.goose3 metodos_rapidos
  else metodos_rapidos

/-- The accepted chain result: the backend's dictionary together with the
`metodo_usado` entry added on acceptance (line 386). -/
structure ChainSuccess where
  dict : ExtractionDict
  metodo_usado : String
deriving DecidableEq, Repr

/-- One iteration body of the chain loop (lines 376-394) before its
`except` clause: invoke the backend (which may raise), and if the result is
truthy with a truthy `texto_completo` whose stripped form is longer than 50
characters and not flagged by `_is_invalid_content`, accept it. -/
def chainAttempt (beh : Behavior) (b : BackendName) (url : String) :
    Except String (Option ChainSuccess) :=
  match beh b url with
  | .throws m => .error m
  | .ret none => .ok none
  | .ret (some r) =>
    match r.texto_completo with
    | none => .ok none
    | some t =>
      if t = "" then .ok none
      else
        if 50 < (pyStrip t).length ∧ is_invalid_content (pyStrip t) = false then
          .ok (some { dict := r, metodo_usado := b.nome })
        else .ok none

/-- The chain loop (lines 375-395): try each backend in order; an exception or
a rejected result moves to the next backend, the first acceptance
short-circuits. -/
def tryChain (beh : Behavior) (url : String) : List BackendName → Option ChainSuccess
  | [] => none
  | b :: rest =>
    match chainAttempt beh b url with
    | .error _ => tryChain beh url rest
    | .ok none => tryChain beh url rest
    | .ok (some cs) => some cs

/-- `extrair_noticia_principal_de_link(url)` (lines 345-398): run the chain
loop over the URL-dependent backend list; `None` when every backend fails. -/
def extrair_noticia_principal_de_link (beh : Behavior) (url : String) : Option ChainSuccess :=
  tryChain beh url (buildChain url)

/-! ## The `LinkEnricher` class -/

/-- The `info_noticia` dictionary built by `LinkEnricher._extract_with_newspaper`
(lines 558-564).  `dict.get(key, default)` returns the *stored* value when the
key is present, so `titulo`, `autores`, `data_publicacao` and `texto_completo`
keep their possibly-`None` values; `metodo_usado` is the name string the chain
added on acceptance. -/
structure InfoNoticia where
  titulo : Option String
  autores : Option (List String)
  data_publicacao : Option String
  texto_completo : Option String
  metodo_usado : String
deriving DecidableEq, Repr

/-- `LinkEnricher._extract_with_newspaper(url)` (lines 547-574): run the
optimized pipeline and convert its result to the `info_noticia` format;
`None` when every extraction method failed. -/
def extract_with_newspaper (beh : Behavior) (url : String) : Option InfoNoticia :=
  match extrair_noticia_principal_de_link beh url with
  | some cs =>
    some { titulo := cs.dict.titulo,
           autores := cs.dict.autores,
           data_publicacao := cs.dict.data_publicacao,
           texto_completo := cs.dict.texto_completo,
           metodo_usado := cs.metodo_usado }
  | none => none

/-- Python truthiness of a possibly-`None` string: `None` and `""` are falsy. -/
def truthyStr : Option String → Bool
  | some s => s != ""
  | none => false

/-- `LinkEnricher._create_simple_summary(title, content)` (lines 576-596).
`title` is `Option String` because the stored title may be Python `None`
(falsy, like `""`). -/
def create_simple_summary (title : Option String) (content : String) : String :=
  if content = "" then "Conteúdo não disponível"
  else
    let parts0 : List String := []
    let parts1 :=
      if truthyStr title = true then parts0 ++ ["Título: " ++ title.getD ""]
      else parts0
    let fp0 := if pyIn "\n\n" content = true then beforeFirst "\n\n" content else content
    let fp := if 200 < fp0.length then pySlice fp0 200 ++ "..." else fp0
    let parts2 :=
      if pyStrip fp = "" then parts1 else parts1 ++ ["Resumo: " ++ pyStrip fp]
    if parts2 = [] then "Conteúdo extraído mas sem informações resumíveis"
    else String.intercalate " | " parts2

/-- The `extraction_notes` string written on a successful extraction
(line 535). -/
def success_notes (metodo : String) (fullLen contentLen : Nat) : String :=
  "Conteúdo extraído com " ++ metodo ++ ". Tamanho: " ++ toString fullLen ++
    " chars, limitado a " ++ toString contentLen ++ " chars"

/-- `LinkEnricher._extract_link_content(url)` (lines 495-545).  On success the
pending record is filled with the (possibly `None`) title, the content
truncated to `content_limit`, the deterministic summary and the success note;
when the pipeline returned `None` the record is marked `failed` with the fixed
note.  A backend exception never reaches the `except` clause of this method:
it is already caught inside the chain loop, so that clause has no residue
here. -/
def extract_link_content (beh : Behavior) (content_limit : Nat) (url : String) : EnrichedLink :=
  match extract_with_newspaper beh url with
  | some info =>
    let content : String :=
      match info.texto_completo with
      | some s => if s = "" then "" else pySlice s content_limit
      | none => ""
    let fullLen : Nat :=
      match info.texto_completo with
      | some s => s.length
      | none => 0
    { url := url,
      title := info.titulo,
      content := content,
      summary := create_simple_summary info.titulo content,
      extraction_status := "success",
      extraction_notes := some (success_notes info.metodo_usado fullLen content.length) }
  | none =>
    { url := url,
      title := some "",
      content := "",
      summary := "",
      extraction_status := "failed",
      extraction_notes := some "Falha na extração de conteúdo" }

/-- `LinkEnricher._enrich_single_claim(claim)` (lines 477-493): one
`EnrichedLink` per URL, in input order. -/
def enrich_single_claim (beh : Behavior) (content_limit : Nat)
    (claim : ExtractedClaim) : EnrichedClaim :=
  { text := claim.text,
    original_links := claim.links,
    enriched_links := claim.links.map (extract_link_content beh content_limit),
    llm_comment := claim.llm_comment,
    entities := claim.entities }

/-- `sum(1 for link in links if link.extraction_status == "success")`
(lines 444-446). -/
def countSuccess (links : List EnrichedLink) : Nat :=
  links.countP (fun l => l.extraction_status == "success")

/-- The claim loop of `LinkEnricher.enrich_links` (lines 438-458), returning
the accumulated `(enriched_claims, total_links, successful_extractions)`.
A claim with truthy (non-empty) `links` is enriched and counted; otherwise it
is converted to an `EnrichedClaim` as-is, with empty `enriched_links`. -/
def enrichLoop (beh : Behavior) (content_limit : Nat) :
    List ExtractedClaim → List EnrichedClaim × Nat × Nat
  | [] => ([], 0, 0)
  | claim :: rest =>
    let tail := enrichLoop beh content_limit rest
    if claim.links ≠ [] then
      let ec := enrich_single_claim beh content_limit claim
      (ec :: tail.1, claim.links.length + tail.2.1, countSuccess ec.enriched_links + tail.2.2)
    else
      ({ text := claim.text, original_links := [], enriched_links := [],
         llm_comment := claim.llm_comment, entities := claim.entities } :: tail.1,
       tail.2.1, tail.2.2)

/-- The `processing_notes` string of the batch result (lines 462-466). -/
def batch_notes (total succ : Nat) : String :=
  "Processados " ++ toString total ++ " links. " ++ toString succ ++
    " extrações bem-sucedidas. " ++ toString (total - succ) ++ " falhas."

/-- `LinkEnricher.enrich_links(claims_result)` (lines 422-475): enrich every
claim and assemble the batch result with its aggregate counts. -/
def enrich_links (beh : Behavior) (content_limit : Nat)
    (claims_result : ClaimExtractionResult) : LinkEnrichmentResult :=
  { original_claims := claims_result.claims,
    enriched_claims := (enrichLoop beh content_limit claims_result.claims).1,
    total_links_processed := (enrichLoop beh content_limit claims_result.claims).2.1,
    successful_extractions := (enrichLoop beh content_limit claims_result.claims).2.2,
    processing_time_ms := 0,
    processing_notes :=
      some (batch_notes (enrichLoop beh content_limit claims_result.claims).2.1
        (enrichLoop beh content_limit claims_result.claims).2.2) }

/-! ## Spec-side definitions and concrete inputs -/

/-- Test for an accepted chain attempt (used to phrase "this backend attempt
failed: it threw, returned nothing, or was rejected" as a decidable
condition). -/
def isOkSome : Except String (Option ChainSuccess) → Bool
  | .ok (some _) => true
  | _ => false

/-- Modelled from the spec: the number of words of the text attributable to
occurrences of lexicon failure-indicator phrases — each occurrence of a phrase
contributes the phrase's word count.  This is the measure the spec's
keyword-density sentence quantifies ("the fraction of the text's total word
count attributable to lexicon-phrase occurrences"), to be compared against the
source's `invalid_count`, which counts each *distinct* phrase at most once. -/
def specLexiconAttributableWords (texto : String) : Nat :=
  (invalid_patterns.map
    (fun p => countOccs p.data (pyStrip (pyLower texto)).data * pyWordCount p)).sum

/-- Modelled from the spec: the host (authority) component of a URL — the text
between the scheme separator `"://"` and the next `"/"`.  Used only to state
what the spec's "the URL's host matches a known social-media domain" reading
requires of a concrete URL. -/
def afterFirst (sep : List Char) : List Char → List Char
  | [] => []
  | c :: cs => if isPfx sep (c :: cs) then (c :: cs).drop sep.length else afterFirst sep cs

/-- The host of a URL (see `afterFirst`). -/
def specHost (url : String) : String :=
  String.mk ((afterFirst "://".data url.data).takeWhile (fun c => c != '/'))

/-- A behaviour in which every backend raises on every URL. -/
def behAllThrow : Behavior := fun _ _ => .throws "boom"

/-- A 40-character filler word. -/
def fillerC5 : String := String.mk (List.replicate 40 'a')

/-- A 314-character text in which the phrase "access denied" occurs twice
(4 of its 11 words, 36% of the total word count, are attributable to lexicon
phrases) yet which passes every check of `_is_invalid_content`: only one
distinct pattern occurs, so `invalid_count = 1` and `1/11 ≤ 15%`, and the text
is long enough to dodge the short-text checks. -/
def textoC5 : String :=
  "access denied access denied " ++ String.intercalate " " (List.replicate 7 fillerC5)

/-- A 60-character substantial text for the chain scenario. -/
def tC4 : String := String.mk (List.replicate 60 'd')

/-- The dictionary the third backend of the scenario returns. -/
def dictC4 : ExtractionDict :=
  { titulo := some "T4", autores := none, data_publicacao := none, texto_completo := some tC4 }

/-- Scenario behaviour: the first two backends of the non-social chain throw,
the third (readability) returns valid substantial text. -/
def behC4 : Behavior := fun b _ =>
  match b with
  | .trafilatura => .throws "erro um"
  | .newspaper3k => .throws "erro dois"
  | .readability => .ret (some dictC4)
  | _ => .throws "outro erro"

/-- A 60-character text within the default content budget. -/
def tC8 : String := String.mk (List.replicate 60 'c')

/-- Behaviour whose first backend succeeds with `tC8`. -/
def behC8 : Behavior := fun b _ =>
  match b with
  | .trafilatura =>
    .ret (some { titulo := some "T8", autores := none,
                 data_publicacao := none, texto_completo := some tC8 })
  | _ => .ret none

/-- The `info_noticia` dictionary `behC8` leads to. -/
def infoC8 : InfoNoticia :=
  { titulo := some "T8", autores := none, data_publicacao := none,
    texto_completo := some tC8, metodo_usado := "trafilatura" }

/-- A 60-character substantial text for the missing-title input. -/
def tC10 : String := String.mk (List.replicate 60 'b')

/-- Behaviour whose winning backend extracts valid text but no title
(`titulo = None`), as trafilatura does when `extract_metadata` returns
nothing. -/
def behNoTitle : Behavior := fun b _ =>
  match b with
  | .trafilatura =>
    .ret (some { titulo := none, autores := none,
                 data_publicacao := none, texto_completo := some tC10 })
  | _ => .ret none

/-! ## Helper lemmas -/

theorem extract_link_content_url (beh : Behavior) (limit : Nat) (url : String) :
    (extract_link_content beh limit url).url = url := by
  unfold extract_link_content
  cases extract_with_newspaper beh url <;> rfl

theorem map_extract_url (beh : Behavior) (limit : Nat) :
    ∀ ls : List String, ls.map (fun u => (extract_link_content beh limit u).url) = ls := by
  intro ls
  induction ls with
  | nil => rfl
  | cons a rest ih => simp [extract_link_content_url, ih]

theorem loop_urls (beh : Behavior) (limit : Nat) :
    ∀ cs : List ExtractedClaim,
      (enrichLoop beh limit cs).1.map (fun ec => ec.enriched_links.map (fun l => l.url)) =
        cs.map (fun c => c.links) := by
  intro cs
  induction cs with
  | nil => rfl
  | cons claim rest ih =>
    by_cases h : claim.links = []
    · simp [enrichLoop, h, ih]
    · simp [enrichLoop, h, ih, enrich_single_claim, Function.comp_def, map_extract_url]

theorem loop_counts (beh : Behavior) (limit : Nat) :
    ∀ cs : List ExtractedClaim,
      (enrichLoop beh limit cs).2.1 = (cs.map (fun c => c.links.length)).sum ∧
      (enrichLoop beh limit cs).2.2 =
        ((enrichLoop beh limit cs).1.map (fun ec => countSuccess ec.enriched_links)).sum := by
  intro cs
  induction cs with
  | nil => exact ⟨rfl, rfl⟩
  | cons claim rest ih =>
    by_cases h : claim.links = []
    · simp [enrichLoop, h, ih.1, ih.2, countSuccess]
    · simp [enrichLoop, h, ih.1, ih.2]

/-! ## C2 and C3 -/

/-- C2: for every input claim the emitted `EnrichedClaim` contains exactly one
`EnrichedLink` per URL of the claim, in the same order (so a claim with zero
URLs yields `enriched_links = []`): mapping each output claim to the list of
its enriched links' URLs recovers exactly the input claims' URL lists. -/
theorem enrich_links_preserves_urls (beh : Behavior) (limit : Nat)
    (cr : ClaimExtractionResult) :
    (enrich_links beh limit cr).enriched_claims.map
        (fun ec => ec.enriched_links.map (fun l => l.url)) =
      cr.claims.map (fun c => c.links) :=
  loop_urls beh limit cr.claims

/-- C3: the batch result's `total_links_processed` is the sum over the input
claims of their URL counts, and `successful_extractions` is the number of
enriched links in the output whose `extraction_status` is `"success"`. -/
theorem enrich_links_batch_counts (beh : Behavior) (limit : Nat)
    (cr : ClaimExtractionResult) :
    (enrich_links beh limit cr).total_links_processed =
        (cr.claims.map (fun c => c.links.length)).sum ∧
      (enrich_links beh limit cr).successful_extractions =
        ((enrich_links beh limit cr).enriched_claims.map
          (fun ec => countSuccess ec.enriched_links)).sum :=
  loop_counts beh limit cr.claims

/-! ## C1 and C6 -/

theorem extract_link_content_statusOk (beh : Behavior) (limit : Nat) (url : String) :
    (extract_link_content beh limit url).extraction_status = "success" ∨
    ((extract_link_content beh limit url).extraction_status = "failed" ∧
     (extract_link_content beh limit url).extraction_notes =
       some "Falha na extração de conteúdo") := by
  unfold extract_link_content
  cases extract_with_newspaper beh url with
  | some info => left; rfl
  | none => right; exact ⟨rfl, rfl⟩

theorem extract_link_content_bool (beh : Behavior) (limit : Nat) (url : String) :
    ((extract_link_content beh limit url).extraction_status == "success" ||
     ((extract_link_content beh limit url).extraction_status == "failed" &&
      (extract_link_content beh limit url).extraction_notes ==
        some "Falha na extração de conteúdo")) = true := by
  rcases extract_link_content_statusOk beh limit url with h | ⟨h1, h2⟩
  · simp [h]
  · simp [h1, h2]

theorem enrichLoop_cons_empty (beh : Behavior) (limit : Nat)
    (claim : ExtractedClaim) (rest : List ExtractedClaim) (h : claim.links = []) :
    enrichLoop beh limit (claim :: rest) =
      ({ text := claim.text, original_links := [], enriched_links := [],
         llm_comment := claim.llm_comment, entities := claim.entities } ::
          (enrichLoop beh limit rest).1,
       (enrichLoop beh limit rest).2.1, (enrichLoop beh limit rest).2.2) := by
  simp [enrichLoop, h]

theorem enrichLoop_cons_links (beh : Behavior) (limit : Nat)
    (claim : ExtractedClaim) (rest : List ExtractedClaim) (h : claim.links ≠ []) :
    enrichLoop beh limit (claim :: rest) =
      (enrich_single_claim beh limit claim :: (enrichLoop beh limit rest).1,
       claim.links.length + (enrichLoop beh limit rest).2.1,
       countSuccess (enrich_single_claim beh limit claim).enriched_links +
         (enrichLoop beh limit rest).2.2) := by
  simp [enrichLoop, h]

theorem loop_links_shape (beh : Behavior) (limit : Nat) :
    ∀ (cs : List ExtractedClaim) (ec : EnrichedClaim), ec ∈ (enrichLoop beh limit cs).1 →
      ec.enriched_links = [] ∨
      ∃ ls : List String, ec.enriched_links = ls.map (extract_link_content beh limit) := by
  intro cs
  induction cs with
  | nil => intro ec h; simp [enrichLoop] at h
  | cons claim rest ih =>
    intro ec h
    by_cases hl : claim.links = []
    · rw [enrichLoop_cons_empty beh limit claim rest hl] at h
      rcases List.mem_cons.mp h with rfl | h
      · left; rfl
      · exact ih ec h
    · rw [enrichLoop_cons_links beh limit claim rest hl] at h
      rcases List.mem_cons.mp h with rfl | h
      · right; exact ⟨claim.links, rfl⟩
      · exact ih ec h

/-- C1 (amended): `enrich_links` returns a well-formed batch for *every*
backend behaviour, including backends that raise: an exception escaping a
backend is caught per attempt inside the strategy-chain loop and treated as
that backend failing, so every produced `EnrichedLink` has status `"success"`
or status `"failed"` with the fixed note `"Falha na extração de conteúdo"` —
the exception message is not propagated into the notes. -/
theorem enrich_links_total_and_failure_note (beh : Behavior) (limit : Nat)
    (cr : ClaimExtractionResult) :
    ((enrich_links beh limit cr).enriched_claims.all (fun ec =>
      ec.enriched_links.all (fun l =>
        l.extraction_status == "success" ||
        (l.extraction_status == "failed" &&
         l.extraction_notes == some "Falha na extração de conteúdo")))) = true := by
  rw [List.all_eq_true]
  intro ec hec
  rw [List.all_eq_true]
  intro l hl
  rcases loop_links_shape beh limit cr.claims ec hec with h0 | ⟨ls, hmap⟩
  · rw [h0] at hl; cases hl
  · rw [hmap, List.mem_map] at hl
    rcases hl with ⟨u, _, rfl⟩
    exact extract_link_content_bool beh limit u

/-- C1 (counterexample): with every backend raising `"boom"`, the per-URL
record is `failed` with the fixed note `"Falha na extração de conteúdo"`,
which does not contain the exception message — contradicting the claim that
the notes contain the exception message truncated to 100 characters. -/
theorem backend_exception_message_not_in_notes :
    (extract_link_content behAllThrow 5000 "http://noticia.site/a").extraction_status =
        "failed" ∧
      (extract_link_content behAllThrow 5000 "http://noticia.site/a").extraction_notes =
        some "Falha na extração de conteúdo" ∧
      pyIn "boom" "Falha na extração de conteúdo" = false := by
  decide

theorem tryChain_none (beh : Behavior) (url : String)
    (h : ∀ b : BackendName, isOkSome (chainAttempt beh b url) = false) :
    ∀ l : List BackendName, tryChain beh url l = none := by
  intro l
  induction l with
  | nil => rfl
  | cons b rest ih =>
    have hb := h b
    unfold tryChain
    cases hc : chainAttempt beh b url with
    | error m => exact ih
    | ok o =>
      cases o with
      | none => exact ih
      | some cs => rw [hc] at hb; simp [isOkSome] at hb

/-- C6 (amended): on a URL where every backend attempt fails (throws, returns
nothing, or is rejected by the length/validity check), the resulting
`EnrichedLink` is exactly the failed record: status `"failed"`, empty content,
*empty* summary (the placeholder `"Conteúdo não disponível"` is produced only
when the summariser runs, which does not happen on failure), and the fixed
human-readable note. -/
theorem all_backends_fail_failed_record (beh : Behavior) (limit : Nat) (url : String)
    (h : ∀ b : BackendName, isOkSome (chainAttempt beh b url) = false) :
    extract_link_content beh limit url =
      { url := url, title := some "", content := "", summary := "",
        extraction_status := "failed",
        extraction_notes := some "Falha na extração de conteúdo" } := by
  have hnone : extrair_noticia_principal_de_link beh url = none :=
    tryChain_none beh url h (buildChain url)
  simp [extract_link_content, extract_with_newspaper, hnone]

theorem all_backends_fail_failed_record_witness :
    extract_link_content behAllThrow 5000 "http://noticia.site/a" =
      { url := "http://noticia.site/a", title := some "", content := "", summary := "",
        extraction_status := "failed",
        extraction_notes := some "Falha na extração de conteúdo" } :=
  all_backends_fail_failed_record behAllThrow 5000 "http://noticia.site/a" (by decide)

/-- C6 (counterexample): with every backend failing, the summary of the failed
record is `""`, not the placeholder `"Conteúdo não disponível"` the claim
asserts. -/
theorem failed_link_summary_not_placeholder :
    (extract_link_content behAllThrow 5000 "http://noticia.site/b").extraction_status =
        "failed" ∧
      (extract_link_content behAllThrow 5000 "http://noticia.site/b").content = "" ∧
      (extract_link_content behAllThrow 5000 "http://noticia.site/b").summary = "" ∧
      ¬ (extract_link_content behAllThrow 5000 "http://noticia.site/b").summary =
          "Conteúdo não disponível" := by
  decide

/-! ## C4: short-circuiting of the strategy chain -/

/-- C4: the strategy chain is tried strictly in order and short-circuits.
First conjunct: an accepted backend attempt determines the chain result
regardless of the remaining backends (they are never consulted).  Second
conjunct: on a non-social URL whose first two backends (trafilatura,
newspaper3k) throw and whose third (readability) returns a non-empty
`full_text` of trimmed length above 50 that the classifier does not flag, the
produced `EnrichedLink` has status `"success"` and its notes identify
readability as the accepted backend. -/
theorem strategy_chain_short_circuits :
    (∀ (beh : Behavior) (url : String) (b : BackendName) (rest : List BackendName)
        (cs : ChainSuccess),
      chainAttempt beh b url = .ok (some cs) → tryChain beh url (b :: rest) = some cs) ∧
    (∀ (beh : Behavior) (limit : Nat) (url m1 m2 : String) (r : ExtractionDict) (t : String),
      pyIn "x.com" url = false → pyIn "twitter.com" url = false →
      beh .trafilatura url = .throws m1 →
      beh .newspaper3k url = .throws m2 →
      beh .readability url = .ret (some r) →
      r.texto_completo = some t →
      50 < (pyStrip t).length →
      is_invalid_content (pyStrip t) = false →
      (extract_link_content beh limit url).extraction_status = "success" ∧
      (extract_link_content beh limit url).extraction_notes =
        some (success_notes "readability" t.length (pySlice t limit).length)) := by
  constructor
  · intro beh url b rest cs h
    simp [tryChain, h]
  · intro beh limit url m1 m2 r t hx htw h1 h2 h3 ht hlen hvalid
    have htne : t ≠ "" := by
      intro he
      rw [he] at hlen
      simp [pyStrip] at hlen
    have hstep : chainAttempt beh .readability url =
        .ok (some { dict := r, metodo_usado := "readability" }) := by
      simp only [chainAttempt, h3, ht]
      rw [if_neg htne, if_pos ⟨hlen, hvalid⟩]
      rfl
    have h1' : chainAttempt beh .trafilatura url = .error m1 := by
      simp [chainAttempt, h1]
    have h2' : chainAttempt beh .newspaper3k url = .error m2 := by
      simp [chainAttempt, h2]
    have hcond : (pyIn "x.com" url || pyIn "twitter.com" url) = false := by
      rw [hx, htw]; rfl
    have hchain : extrair_noticia_principal_de_link beh url =
        some { dict := r, metodo_usado := "readability" } := by
      unfold extrair_noticia_principal_de_link buildChain
      simp [hcond, metodos_rapidos, tryChain, h1', h2', hstep]
    have hextr : extract_with_newspaper beh url =
        some { titulo := r.titulo, autores := r.autores,
               data_publicacao := r.data_publicacao,
               texto_completo := r.texto_completo, metodo_usado := "readability" } := by
      simp [extract_with_newspaper, hchain]
    constructor
    · simp [extract_link_content, hextr]
    · simp [extract_link_content, hextr, ht, htne]

theorem strategy_chain_short_circuits_witness :
    tryChain behC4 "http://noticia.site/a"
        (BackendName.readability :: [BackendName.beautifulsoup]) =
      some { dict := dictC4, metodo_usado := "readability" } ∧
    (extract_link_content behC4 5000 "http://noticia.site/a").extraction_status =
      "success" ∧
    (extract_link_content behC4 5000 "http://noticia.site/a").extraction_notes =
      some (success_notes "readability" tC4.length (pySlice tC4 5000).length) :=
  ⟨strategy_chain_short_circuits.1 behC4 "http://noticia.site/a" .readability
      [.beautifulsoup] { dict := dictC4, metodo_usado := "readability" } rfl,
   (strategy_chain_short_circuits.2 behC4 5000 "http://noticia.site/a" "erro um"
      "erro dois" dictC4 tC4 (by decide) (by decide) rfl rfl rfl rfl
      (by decide) (by decide)).1,
   (strategy_chain_short_circuits.2 behC4 5000 "http://noticia.site/a" "erro um"
      "erro dois" dictC4 tC4 (by decide) (by decide) rfl rfl rfl rfl
      (by decide) (by decide)).2⟩

/-! ## C5: the keyword-density rule -/

/-- C5 (counterexample): a text in which more than 15% of the words are
attributable to occurrences of lexicon phrases (here 4 of 11 words, two
occurrences of "access denied"), yet `_is_invalid_content` accepts it: the
code counts each *distinct* pattern once (`invalid_count = 1 ≤ 0.15 · 11`)
rather than weighting occurrences by their word count. -/
theorem keyword_density_claim_counterexample :
    20 * specLexiconAttributableWords textoC5 >
        3 * pyWordCount (pyStrip (pyLower textoC5)) ∧
      is_invalid_content textoC5 = false := by
  decide

/-- C5 (amended): if the number of *distinct* lexicon phrases occurring in the
lowercased, stripped text exceeds 15% of the text's total word count (and the
text has at least one word), the classifier rejects the text.  The float
comparison `invalid_count / total_words > 0.15` is the exact comparison
`20 · invalid_count > 3 · total_words`. -/
theorem keyword_density_rejects (texto : String)
    (h0 : 0 < pyWordCount (pyStrip (pyLower texto)))
    (h1 : 20 * countContained invalid_patterns (pyStrip (pyLower texto)) >
      3 * pyWordCount (pyStrip (pyLower texto))) :
    is_invalid_content texto = true := by
  have hne : ¬ texto = "" := by
    intro he
    subst he
    exact absurd h0 (by decide)
  unfold is_invalid_content is_invalid_core
  rw [if_neg hne, if_pos ⟨h0, h1⟩]

theorem keyword_density_rejects_witness : is_invalid_content "access denied" = true :=
  keyword_density_rejects "access denied" (by decide) (by decide)

/-! ## C7: domain-conditional chain composition -/

/-- C7 (counterexample): the source tests `'x.com' in url`, a substring check,
not a host match: the URL `https://notx.com/page`, whose host is `notx.com`
(neither `x.com` nor `twitter.com`), nevertheless gets goose3 inserted and
does not use the fixed five-backend chain. -/
theorem social_domain_insertion_counterexample :
    specHost "https://notx.com/page" = "notx.com" ∧
      specHost "https://notx.com/page" ≠ "x.com" ∧
      specHost "https://notx.com/page" ≠ "twitter.com" ∧
      buildChain "https://notx.com/page" =
        [.trafilatura, .goose3, .newspaper3k, .readability, .requests_session,
         .beautifulsoup] ∧
      buildChain "https://notx.com/page" ≠ metodos_rapidos := by
  decide

/-- C7 (amended): goose3 is inserted immediately after backend #1
(trafilatura) exactly when the URL *contains* `"x.com"` or `"twitter.com"` as
a substring; for all other URLs the chain is the fixed five-backend order
trafilatura, newspaper3k, readability, requests-session, beautifulsoup. -/
theorem chain_composition (url : String) :
    buildChain url =
      (if pyIn "x.com" url || pyIn "twitter.com" url then
        [BackendName.trafilatura, .goose3, .newspaper3k, .readability,
         .requests_session, .beautifulsoup]
      else
        [BackendName.trafilatura, .newspaper3k, .readability,
         .requests_session, .beautifulsoup]) := by
  cases hb : pyIn "x.com" url || pyIn "twitter.com" url <;>
    simp [buildChain, hb, pyInsert, metodos_rapidos]

/-! ## C8: the truncation law -/

/-- C8: `len(content) ≤ content_limit` holds for every produced
`EnrichedLink`, and whenever the winning backend's `full_text` already fits
the budget (`len(full_text) ≤ content_limit`), `content` equals `full_text`
unchanged. -/
theorem truncation_law (beh : Behavior) (content_limit : Nat) (url : String) :
    (extract_link_content beh content_limit url).content.length ≤ content_limit ∧
    (∀ (info : InfoNoticia) (t : String),
      extract_with_newspaper beh url = some info → info.texto_completo = some t →
      t.length ≤ content_limit →
      (extract_link_content beh content_limit url).content = t) := by
  constructor
  · unfold extract_link_content
    cases hE : extract_with_newspaper beh url with
    | none => simp
    | some info =>
      cases ht : info.texto_completo with
      | none => simp [ht]
      | some t =>
        by_cases he : t = ""
        · simp [ht, he]
        · simp only [ht, he, if_false, if_neg he]
          show (String.mk (t.data.take content_limit)).length ≤ content_limit
          rw [show (String.mk (t.data.take content_limit)).length =
            (t.data.take content_limit).length from rfl]
          rw [List.length_take]
          exact Nat.min_le_left _ _
  · intro info t hE ht hle
    unfold extract_link_content
    rw [hE]
    simp only [ht]
    by_cases he : t = ""
    · simp [he]
    · simp only [he, if_false, if_neg he]
      show String.mk (t.data.take content_limit) = t
      rw [List.take_of_length_le hle]

theorem truncation_law_witness :
    (extract_link_content behC8 5000 "http://noticia.site/d").content.length ≤ 5000 ∧
      (extract_link_content behC8 5000 "http://noticia.site/d").content = tC8 :=
  ⟨(truncation_law behC8 5000 "http://noticia.site/d").1,
   (truncation_law behC8 5000 "http://noticia.site/d").2 infoC8 tC8 rfl rfl (by decide)⟩

/-! ## C9: deterministic summary construction -/

theorem intercalate_pair (s a b : String) : String.intercalate s [a, b] = a ++ s ++ b := rfl

/-- C9: the summary is built deterministically, without a model call, as
`"Título: {title}"` joined by `" | "` with `"Resumo: "` followed by the first
paragraph of the content — the text up to the first `"\n\n"` (stripped) — when
a non-empty title exists, the content is non-empty, a paragraph break occurs,
the first paragraph is within 200 characters and is non-blank.  Instantiated
at title `"X"` and content `"Para A.\n\nPara B."` this gives exactly
`"Título: X | Resumo: Para A."` (see the witness). -/
theorem summary_construction (t c : String)
    (ht : t ≠ "") (hc : c ≠ "")
    (hsep : pyIn "\n\n" c = true)
    (hlen : (beforeFirst "\n\n" c).length ≤ 200)
    (hne : pyStrip (beforeFirst "\n\n" c) ≠ "") :
    create_simple_summary (some t) c =
      ("Título: " ++ t) ++ " | " ++ ("Resumo: " ++ pyStrip (beforeFirst "\n\n" c)) := by
  have htr : truthyStr (some t) = true := by
    simp [truthyStr, ht]
  have hlt : ¬ 200 < (beforeFirst "\n\n" c).length := by omega
  unfold create_simple_summary
  rw [if_neg hc]
  simp only [htr, hsep, if_true, hlt, if_false, hne, ite_false, ite_true,
    Option.getD_some, List.nil_append, List.singleton_append]
  rw [if_neg (by simp :
    ¬ (["Título: " ++ t, "Resumo: " ++ pyStrip (beforeFirst "\n\n" c)] = ([] : List String)))]
  rw [intercalate_pair]

theorem summary_construction_witness :
    create_simple_summary (some "X") "Para A.\n\nPara B." =
        ("Título: " ++ "X") ++ " | " ++
          ("Resumo: " ++ pyStrip (beforeFirst "\n\n" "Para A.\n\nPara B.")) ∧
      ("Título: " ++ "X") ++ " | " ++
          ("Resumo: " ++ pyStrip (beforeFirst "\n\n" "Para A.\n\nPara B.")) =
        "Título: X | Resumo: Para A." :=
  ⟨summary_construction "X" "Para A.\n\nPara B." (by decide) (by decide) (by decide)
      (by decide) (by decide),
   by decide⟩

/-! ## C10: the record shape of produced EnrichedLinks -/

/-- C10 (failing input): when the winning backend extracts valid text but no
title (a dictionary with `titulo = None`, as trafilatura produces when
`extract_metadata` returns nothing), the produced `EnrichedLink` has
`title = None` rather than the declared-string default `""`:
`dict.get("titulo", "")` returns the stored `None` because the key is present,
and pydantic does not validate plain attribute assignment.  This contradicts
the `EnrichedLink` model's own declaration `title: str = Field(default="")`. -/
theorem enriched_link_title_can_be_none :
    (extract_link_content behNoTitle 5000 "http://noticia.site/c").extraction_status =
        "success" ∧
      (extract_link_content behNoTitle 5000 "http://noticia.site/c").title = none := by
  decide

end LinkEnricher
